import Mathlib

/-!
Verification of the auth core of the media-gateway repository
(crates/auth: server.rs, storage.rs, error.rs, password_reset_handlers.rs,
middleware/rate_limit_integration_tests.rs).

The repository code is shallowly embedded below.  Pure Rust helpers become
Lean functions; the Redis-backed storage becomes an explicit TTL-aware
key-value map threaded through each handler; handlers return an outcome
record holding the new state, the handler result, and a trace of the
side-effecting events in the order the code performs them.

Parts of the crate referenced by the handlers but not present in the
source tree (oauth/pkce.rs, oauth/device.rs, jwt.rs, session.rs,
middleware/rate_limit.rs) are modelled from the specification; each such
definition carries a doc comment starting with the words Modelled from the
spec.
-/

set_option maxRecDepth 4000

-- ===========================================================================
-- SHA-256 (FIPS 180-4) over byte lists, and base64url without padding.
-- Needed because the spec defines the PKCE S256 method as
-- base64url-no-pad of SHA-256(verifier).
-- ===========================================================================

/-- Reduce a natural number to a 32-bit word. -/
def w32 (x : Nat) : Nat := x % 4294967296

/-- Right rotation of a 32-bit word by n bits. -/
def rotr32 (n x : Nat) : Nat := w32 ((x >>> n) ||| (x <<< (32 - n)))

/-- Bitwise complement of a 32-bit word. -/
def not32 (x : Nat) : Nat := x ^^^ 4294967295

def sha_ch (x y z : Nat) : Nat := (x &&& y) ^^^ (not32 x &&& z)

def sha_maj (x y z : Nat) : Nat := (x &&& y) ^^^ (x &&& z) ^^^ (y &&& z)

def big_sigma0 (x : Nat) : Nat := (rotr32 2 x) ^^^ (rotr32 13 x) ^^^ (rotr32 22 x)

def big_sigma1 (x : Nat) : Nat := (rotr32 6 x) ^^^ (rotr32 11 x) ^^^ (rotr32 25 x)

def small_sigma0 (x : Nat) : Nat := (rotr32 7 x) ^^^ (rotr32 18 x) ^^^ (x >>> 3)

def small_sigma1 (x : Nat) : Nat := (rotr32 17 x) ^^^ (rotr32 19 x) ^^^ (x >>> 10)

/-- The 64 SHA-256 round constants. -/
def sha256K : List Nat :=
  [1116352408, 1899447441, 3049323471, 3921009573, 961987163,
   1508970993, 2453635748, 2870763221, 3624381080, 310598401,
   607225278, 1426881987, 1925078388, 2162078206, 2614888103,
   3248222580, 3835390401, 4022224774, 264347078, 604807628,
   770255983, 1249150122, 1555081692, 1996064986, 2554220882,
   2821834349, 2952996808, 3210313671, 3336571891, 3584528711,
   113926993, 338241895, 666307205, 773529912, 1294757372,
   1396182291, 1695183700, 1986661051, 2177026350, 2456956037,
   2730485921, 2820302411, 3259730800, 3345764771, 3516065817,
   3600352804, 4094571909, 275423344, 430227734, 506948616,
   659060556, 883997877, 958139571, 1322822218, 1537002063,
   1747873779, 1955562222, 2024104815, 2227730452, 2361852424,
   2428436474, 2756734187, 3204031479, 3329325298]

/-- The SHA-256 initial hash value. -/
def sha256H0 : List Nat :=
  [1779033703, 3144134277, 1013904242, 2773480762, 1359893119,
   2600822924, 528734635, 1541459225]

/-- Big-endian byte encoding of n in k bytes. -/
def beBytes (k n : Nat) : List Nat :=
  (List.range k).map (fun i => (n >>> (8 * (k - 1 - i))) % 256)

/-- SHA-256 padding: append 0x80, zeros, and the 64-bit big-endian bit length. -/
def sha256Pad (msg : List Nat) : List Nat :=
  let len := msg.length
  let zeros := (120 - ((len + 1) % 64)) % 64
  msg ++ [0x80] ++ List.replicate zeros 0 ++ beBytes 8 (len * 8)

/-- Group a byte list into big-endian 32-bit words, four bytes at a time. -/
def bytesToWords : List Nat → List Nat
  | b0 :: b1 :: b2 :: b3 :: rest =>
      (((b0 * 256 + b1) * 256 + b2) * 256 + b3) :: bytesToWords rest
  | _ => []

/-- Message-schedule extension; acc holds the words produced so far, most
recent first, and n more words are appended. -/
def extendWords : Nat → List Nat → List Nat
  | 0, acc => acc
  | n + 1, acc =>
      let x := w32 (small_sigma1 (acc.getD 1 0) + acc.getD 6 0 +
                    small_sigma0 (acc.getD 14 0) + acc.getD 15 0)
      extendWords n (x :: acc)

/-- The eight SHA-256 working variables. -/
structure SHAState where
  a : Nat
  b : Nat
  c : Nat
  d : Nat
  e : Nat
  f : Nat
  g : Nat
  h : Nat
deriving DecidableEq

/-- One SHA-256 compression round. -/
def sha_round (s : SHAState) (kt wt : Nat) : SHAState :=
  let t1 := w32 (s.h + big_sigma1 s.e + sha_ch s.e s.f s.g + kt + wt)
  let t2 := w32 (big_sigma0 s.a + sha_maj s.a s.b s.c)
  ⟨w32 (t1 + t2), s.a, s.b, s.c, w32 (s.d + t1), s.e, s.f, s.g⟩

/-- Compress one 64-byte block into the running hash value. -/
def compressBlock (hv : List Nat) (block : List Nat) : List Nat :=
  let ws := (extendWords 48 (bytesToWords block).reverse).reverse
  let s0 : SHAState :=
    ⟨hv.getD 0 0, hv.getD 1 0, hv.getD 2 0, hv.getD 3 0,
     hv.getD 4 0, hv.getD 5 0, hv.getD 6 0, hv.getD 7 0⟩
  let fin := (sha256K.zip ws).foldl (fun s p => sha_round s p.1 p.2) s0
  [w32 (s0.a + fin.a), w32 (s0.b + fin.b), w32 (s0.c + fin.c), w32 (s0.d + fin.d),
   w32 (s0.e + fin.e), w32 (s0.f + fin.f), w32 (s0.g + fin.g), w32 (s0.h + fin.h)]

/-- Process n blocks of 64 bytes from the padded message. -/
def sha256Blocks : Nat → List Nat → List Nat → List Nat
  | 0, hv, _ => hv
  | n + 1, hv, bytes => sha256Blocks n (compressBlock hv (bytes.take 64)) (bytes.drop 64)

/-- SHA-256 of a byte list, as a 32-byte list. -/
def sha256 (msg : List Nat) : List Nat :=
  let padded := sha256Pad msg
  ((sha256Blocks (padded.length / 64) sha256H0 padded).map (beBytes 4)).flatten

/-- The base64url alphabet (RFC 4648 section 5). -/
def b64urlAlphabet : String :=
  "ABCDEFGHIJKLMNOPQRSTUVWXYZabcdefghijklmnopqrstuvwxyz0123456789-_"

def b64Char (n : Nat) : Char := b64urlAlphabet.toList.getD n 'A'

/-- base64url encoding without padding, as a character list. -/
def base64urlNoPad : List Nat → List Char
  | [] => []
  | [b0] => [b64Char (b0 >>> 2), b64Char ((b0 % 4) <<< 4)]
  | [b0, b1] =>
      [b64Char (b0 >>> 2), b64Char (((b0 % 4) <<< 4) ||| (b1 >>> 4)),
       b64Char ((b1 % 16) <<< 2)]
  | b0 :: b1 :: b2 :: rest =>
      b64Char (b0 >>> 2) :: b64Char (((b0 % 4) <<< 4) ||| (b1 >>> 4)) ::
      b64Char (((b1 % 16) <<< 2) ||| (b2 >>> 6)) :: b64Char (b2 % 64) ::
      base64urlNoPad rest

/-- The bytes of an ASCII string; PKCE verifiers are drawn from the ASCII
unreserved alphabet, where code points coincide with UTF-8 bytes. -/
def asciiBytes (s : String) : List Nat := s.data.map Char.toNat

/-- Modelled from the spec: the PKCE S256 transform, base64url-no-pad of
SHA-256(verifier), as used by oauth/pkce.rs (not under src). -/
def s256Challenge (verifier : String) : String :=
  String.mk (base64urlNoPad (sha256 (asciiBytes verifier)))

/-- Sanity check of the hash pipeline against the RFC 7636 appendix B
test vector. -/
theorem s256_rfc7636_test_vector :
    s256Challenge "dBjftJeZ4CVP-mB92K27uhbUJU1p1r_wW1gFWFOEjXk" =
      "E9Melhoa2OwvFrEMTJguCHaoeK1t8URWbuGJSstw-cM" := by decide

-- ===========================================================================
-- Error taxonomy, from crates/auth/src/error.rs (enum AuthError).
-- ===========================================================================

/-- The closed error variant type of error.rs. -/
inductive AuthError
  | invalidCredentials
  | invalidToken (msg : String)
  | tokenExpired
  | invalidPkceVerifier
  | invalidAuthCode
  | authCodeReused
  | insufficientPermissions
  | invalidScope (s : String)
  | sessionNotFound
  | sessionExpired
  | invalidRedirectUri
  | invalidClient
  | database (s : String)
  | redis (s : String)
  | internal (s : String)
  | config (s : String)
  | rateLimitExceeded
  | deviceCodeNotFound
  | authorizationPending
  | accessDenied
  | deviceCodeExpired
  | invalidUserCode
  | deviceAlreadyApproved
  | unauthorized
deriving DecidableEq, Repr

deriving instance DecidableEq for Except

-- ===========================================================================
-- Records stored in Redis.  AuthorizationCode and DeviceCode live in
-- oauth/pkce.rs and oauth/device.rs, which are not under src; their fields
-- and methods are modelled from the spec (sections 3 and 4).  Timestamps
-- are absolute seconds (Nat).
-- ===========================================================================

/-- Modelled from the spec: the AuthorizationCode record of oauth/pkce.rs
(spec section 3). -/
structure AuthorizationCode where
  code : String
  client_id : String
  redirect_uri : String
  user_id : String
  scopes : List String
  code_challenge : String
  used : Bool
  expires_at : Nat
deriving DecidableEq, Repr

/-- Modelled from the spec: AuthorizationCode.is_expired, true once the
current time is past expires_at. -/
def AuthorizationCode.is_expired (a : AuthorizationCode) (now : Nat) : Bool :=
  decide (a.expires_at < now)

/-- Modelled from the spec: AuthorizationCode.mark_as_used flips the used
flag to true. -/
def AuthorizationCode.mark_as_used (a : AuthorizationCode) : AuthorizationCode :=
  { a with used := true }

/-- Modelled from the spec: AuthorizationCode.verify_pkce recomputes the
S256 challenge from the supplied verifier and compares it with the stored
code_challenge; a mismatch is an invalid-PKCE-verifier error
(spec section 4.2 step 4). -/
def AuthorizationCode.verify_pkce (a : AuthorizationCode) (verifier : String) :
    Except AuthError Unit :=
  if a.code_challenge = s256Challenge verifier then .ok () else .error .invalidPkceVerifier

/-- Modelled from the spec: the DeviceCodeStatus enum of oauth/device.rs. -/
inductive DeviceCodeStatus
  | pending
  | approved
  | denied
  | expired
deriving DecidableEq, Repr

/-- Modelled from the spec: the DeviceCode record of oauth/device.rs
(spec section 3). -/
structure DeviceCode where
  device_code : String
  user_code : String
  client_id : String
  scopes : List String
  status : DeviceCodeStatus
  user_id : Option String
  expires_at : Nat
deriving DecidableEq, Repr

/-- Modelled from the spec: DeviceCode.is_expired. -/
def DeviceCode.is_expired (d : DeviceCode) (now : Nat) : Bool :=
  decide (d.expires_at < now)

/-- Modelled from the spec: DeviceCode.check_status maps the status to the
poll outcome of spec section 4.3: Pending gives authorization-pending,
Denied gives access-denied, Expired gives device-code-expired, Approved
passes. -/
def DeviceCode.check_status (d : DeviceCode) : Except AuthError Unit :=
  match d.status with
  | .pending => .error .authorizationPending
  | .denied => .error .accessDenied
  | .expired => .error .deviceCodeExpired
  | .approved => .ok ()

/-- Modelled from the spec: DeviceCode.approve sets status to Approved and
binds the approving user id (spec section 4.3). -/
def DeviceCode.approve (d : DeviceCode) (uid : String) : DeviceCode :=
  { d with status := .approved, user_id := some uid }

-- ===========================================================================
-- The Redis store, from crates/auth/src/storage.rs.  One key space holds
-- typed values under namespaced keys; every entry expires at an absolute
-- time, mirroring SET EX / TTL semantics.
-- ===========================================================================

/-- A stored value: authcode keys hold AuthorizationCode records, devicecode
keys hold DeviceCode records, and the reverse devicecode:user keys hold the
raw device_code string (storage.rs store_device_code). -/
inductive Val
  | auth (a : AuthorizationCode)
  | device (d : DeviceCode)
  | str (s : String)
deriving DecidableEq, Repr

/-- A store entry with its absolute expiry time. -/
structure Entry where
  value : Val
  expiresAt : Nat
deriving DecidableEq, Repr

/-- The Redis key space. -/
def Store := String → Option Entry

/-- Redis GET: a value is visible only while its key has not expired. -/
def Store.get (s : Store) (now : Nat) (k : String) : Option Val :=
  match s k with
  | some e => if now < e.expiresAt then some e.value else none
  | none => none

/-- Redis SET EX: store a value with a relative TTL in seconds. -/
def Store.setEx (s : Store) (now : Nat) (k : String) (v : Val) (ttl : Nat) : Store :=
  fun k' => if k' = k then some ⟨v, now + ttl⟩ else s k'

/-- Redis DEL. -/
def Store.del (s : Store) (k : String) : Store :=
  fun k' => if k' = k then none else s k'

/-- Redis TTL: remaining seconds for a live key, -2 for a missing or
expired key. -/
def Store.ttl (s : Store) (now : Nat) (k : String) : Int :=
  match s k with
  | some e => if now < e.expiresAt then (e.expiresAt : Int) - now else -2
  | none => -2

def AUTH_CODE_TTL_SECS : Nat := 300

def DEVICE_CODE_TTL_SECS : Nat := 900

def authKey (code : String) : String := "authcode:" ++ code

def deviceKey (dc : String) : String := "devicecode:" ++ dc

def deviceUserKey (uc : String) : String := "devicecode:user:" ++ uc

/-- storage.rs get_auth_code: GET authcode:{code} and deserialize. -/
def get_auth_code (s : Store) (now : Nat) (code : String) :
    Except AuthError (Option AuthorizationCode) :=
  match s.get now (authKey code) with
  | some (.auth a) => .ok (some a)
  | some _ => .error (.internal "Deserialization error")
  | none => .ok none

/-- storage.rs update_auth_code: read the remaining TTL of the key and
rewrite the value with that same TTL, but only when the TTL is positive;
otherwise do nothing.  The call returns Ok either way. -/
def update_auth_code (s : Store) (now : Nat) (code : String) (a : AuthorizationCode) :
    Except AuthError Store :=
  let ttl := s.ttl now (authKey code)
  if ttl > 0 then .ok (s.setEx now (authKey code) (.auth a) ttl.toNat)
  else .ok s

/-- storage.rs delete_auth_code. -/
def delete_auth_code (s : Store) (code : String) : Store :=
  s.del (authKey code)

/-- storage.rs store_device_code: write the record under the primary key
and the device_code string under the reverse user_code key, both with the
15 minute TTL. -/
def store_device_code (s : Store) (now : Nat) (dc : String) (d : DeviceCode) : Store :=
  (s.setEx now (deviceKey dc) (.device d) DEVICE_CODE_TTL_SECS).setEx now
    (deviceUserKey d.user_code) (.str dc) DEVICE_CODE_TTL_SECS

/-- storage.rs get_device_code. -/
def get_device_code (s : Store) (now : Nat) (dc : String) :
    Except AuthError (Option DeviceCode) :=
  match s.get now (deviceKey dc) with
  | some (.device d) => .ok (some d)
  | some _ => .error (.internal "Deserialization error")
  | none => .ok none

/-- storage.rs update_device_code: same TTL-preserving conditional write as
update_auth_code. -/
def update_device_code (s : Store) (now : Nat) (dc : String) (d : DeviceCode) :
    Except AuthError Store :=
  let ttl := s.ttl now (deviceKey dc)
  if ttl > 0 then .ok (s.setEx now (deviceKey dc) (.device d) ttl.toNat)
  else .ok s

/-- storage.rs get_device_code_by_user_code: resolve the reverse mapping,
then fetch the primary record. -/
def get_device_code_by_user_code (s : Store) (now : Nat) (uc : String) :
    Except AuthError (Option DeviceCode) :=
  match s.get now (deviceUserKey uc) with
  | some (.str dc) => get_device_code s now dc
  | some _ => .error (.internal "Deserialization error")
  | none => .ok none

/-- storage.rs delete_device_code: fetch the record to learn its user_code,
delete the reverse key when the record is present, then delete the primary
key. -/
def delete_device_code (s : Store) (now : Nat) (dc : String) :
    Except AuthError Store :=
  match get_device_code s now dc with
  | .error e => .error e
  | .ok od =>
      let s1 := match od with
        | some d => s.del (deviceUserKey d.user_code)
        | none => s
      .ok (s1.del (deviceKey dc))

-- ===========================================================================
-- Token issuer and session manager.  jwt.rs and session.rs are not under
-- src; they are modelled from spec sections 4.4 and 4.6.  Tokens are the
-- signed claim sets themselves; jti values are drawn from a fresh counter.
-- ===========================================================================

/-- Modelled from the spec: the claim set carried by every token
(spec section 3, RefreshToken claims). -/
structure Claims where
  sub : String
  email : Option String
  roles : List String
  scopes : List String
  jti : Nat
  exp : Nat
deriving DecidableEq, Repr

/-- A token is either an access token or a refresh token. -/
inductive TokenKind
  | access
  | refresh
deriving DecidableEq, Repr

/-- Modelled from the spec: a signed token, identified with its claim set
and kind (the Token Issuer is a pure function of a signing key and claims,
spec section 3). -/
structure Token where
  kind : TokenKind
  claims : Claims
deriving DecidableEq, Repr

def ACCESS_TOKEN_TTL_SECS : Nat := 3600

def REFRESH_TOKEN_TTL_SECS : Nat := 604800

/-- Modelled from the spec: jwt.rs create_access_token; the jti is fresh. -/
def create_access_token (sub : String) (email : Option String) (roles scopes : List String)
    (jti now : Nat) : Token :=
  ⟨.access, ⟨sub, email, roles, scopes, jti, now + ACCESS_TOKEN_TTL_SECS⟩⟩

/-- Modelled from the spec: jwt.rs create_refresh_token; the jti is fresh. -/
def create_refresh_token (sub : String) (email : Option String) (roles scopes : List String)
    (jti now : Nat) : Token :=
  ⟨.refresh, ⟨sub, email, roles, scopes, jti, now + REFRESH_TOKEN_TTL_SECS⟩⟩

/-- Modelled from the spec: jwt.rs verify_refresh_token, which fails with a
distinct outcome on an expired token and on a token of the wrong kind
(spec section 4.6). -/
def verify_refresh_token (t : Token) (now : Nat) : Except AuthError Claims :=
  if t.kind = .refresh then
    if now < t.claims.exp then .ok t.claims else .error .tokenExpired
  else .error (.invalidToken "wrong token type")

/-- Modelled from the spec: the session manager state of session.rs,
holding revocation entries (jti with their expiry) and session records
binding user_id to jti (spec section 4.4). -/
structure SessionStore where
  revoked : List (Nat × Nat)
  sessions : List (String × Nat)
deriving DecidableEq, Repr

/-- Modelled from the spec: session.rs is_token_revoked. -/
def is_token_revoked (ss : SessionStore) (jti now : Nat) : Bool :=
  ss.revoked.any (fun p => p.1 == jti && decide (now < p.2))

/-- Modelled from the spec: session.rs revoke_token; the revocation entry
lives for the given TTL. -/
def revoke_token (ss : SessionStore) (jti ttl now : Nat) : SessionStore :=
  { ss with revoked := (jti, now + ttl) :: ss.revoked }

/-- Modelled from the spec: session.rs create_session registers the
user_id to jti binding. -/
def create_session (ss : SessionStore) (uid : String) (jti : Nat) : SessionStore :=
  { ss with sessions := (uid, jti) :: ss.sessions }

-- ===========================================================================
-- Server handlers, from crates/auth/src/server.rs.  Each handler takes the
-- shared state (store, session manager, fresh-jti counter), explicit time
-- arguments for its store round trips, and produces a new state, the
-- handler result, and an event trace in source order.
-- ===========================================================================

/-- The shared application state threaded through the handlers. -/
structure SrvState where
  store : Store
  sessions : SessionStore
  nextJti : Nat

/-- Observable handler events, in the order the source performs them. -/
inductive Ev
  | get
  | update
  | del
  | mintAccess
  | mintRefresh
  | session
  | revoke
deriving DecidableEq, Repr

/-- The token response shape of server.rs TokenResponse. -/
structure TokenResponse where
  access_token : Token
  refresh_token : Token
  token_type : String
  expires_in : Nat
  scope : String
deriving DecidableEq, Repr

/-- Outcome of one handler call. -/
structure Outcome where
  st : SrvState
  result : Except AuthError TokenResponse
  events : List Ev

/-- The authorization_code grant parameters of server.rs TokenRequest,
after the ok_or extraction of the four mandatory fields
(server.rs lines 145 to 148). -/
structure ExchangeReq where
  code : String
  code_verifier : String
  redirect_uri : String
  client_id : String

def joinScopes (scopes : List String) : String := String.intercalate " " scopes

/-- server.rs exchange_authorization_code, read part (lines 150 to 174):
fetch the code record, reject reuse, reject expiry, verify PKCE, verify
client_id and redirect_uri.  Everything up to the first write. -/
def exchange_read_phase (req : ExchangeReq) (s : Store) (now : Nat) :
    Except AuthError AuthorizationCode :=
  match get_auth_code s now req.code with
  | .error e => .error e
  | .ok none => .error .invalidAuthCode
  | .ok (some ac) =>
      if ac.used then .error .authCodeReused
      else if ac.is_expired now then .error .invalidAuthCode
      else match ac.verify_pkce req.code_verifier with
        | .error e => .error e
        | .ok _ =>
            if ac.client_id = req.client_id ∧ ac.redirect_uri = req.redirect_uri then .ok ac
            else .error .invalidClient

/-- server.rs exchange_authorization_code, write part (lines 176 to 209):
mark the record used, persist it through update_auth_code, mint the access
and refresh tokens, verify the refresh token to read its jti, and create
the session. -/
def exchange_commit_phase (req : ExchangeReq) (ac : AuthorizationCode) (st : SrvState)
    (now : Nat) : Outcome :=
  let ac' := ac.mark_as_used
  match update_auth_code st.store now req.code ac' with
  | .error e => ⟨st, .error e, [.update]⟩
  | .ok store' =>
      let email := some ("user" ++ ac.user_id ++ "@example.com")
      let access := create_access_token ac.user_id email ["free_user"] ac.scopes st.nextJti now
      let refresh := create_refresh_token ac.user_id email ["free_user"] ac.scopes
        (st.nextJti + 1) now
      match verify_refresh_token refresh now with
      | .error e => ⟨⟨store', st.sessions, st.nextJti + 2⟩, .error e,
          [.update, .mintAccess, .mintRefresh]⟩
      | .ok rc =>
          let sessions' := create_session st.sessions ac.user_id rc.jti
          ⟨⟨store', sessions', st.nextJti + 2⟩,
           .ok ⟨access, refresh, "Bearer", 3600, joinScopes ac.scopes⟩,
           [.update, .mintAccess, .mintRefresh, .session]⟩

/-- server.rs exchange_authorization_code (lines 141 to 209), with the get
round trip at time tGet and the update round trip onward at time tUpd. -/
def exchange_authorization_code (req : ExchangeReq) (st : SrvState) (tGet tUpd : Nat) :
    Outcome :=
  match get_auth_code st.store tGet req.code with
  | .error e => ⟨st, .error e, [.get]⟩
  | .ok none => ⟨st, .error .invalidAuthCode, [.get]⟩
  | .ok (some ac) =>
      if ac.used then ⟨st, .error .authCodeReused, [.get]⟩
      else if ac.is_expired tGet then
        ⟨⟨delete_auth_code st.store req.code, st.sessions, st.nextJti⟩,
         .error .invalidAuthCode, [.get, .del]⟩
      else match ac.verify_pkce req.code_verifier with
        | .error e => ⟨st, .error e, [.get]⟩
        | .ok _ =>
            if ac.client_id = req.client_id ∧ ac.redirect_uri = req.redirect_uri then
              let o := exchange_commit_phase req ac st tUpd
              ⟨o.st, o.result, .get :: o.events⟩
            else ⟨st, .error .invalidClient, [.get]⟩

/-- server.rs refresh_access_token (lines 211 to 254): verify the presented
refresh token, reject a revoked jti, mint new tokens, revoke the old jti,
create the new session. -/
def refresh_access_token (tok : Token) (st : SrvState) (now : Nat) : Outcome :=
  match verify_refresh_token tok now with
  | .error e => ⟨st, .error e, []⟩
  | .ok claims =>
      if is_token_revoked st.sessions claims.jti now then
        ⟨st, .error (.invalidToken "Token revoked"), []⟩
      else
        let access := create_access_token claims.sub claims.email claims.roles claims.scopes
          st.nextJti now
        let refresh := create_refresh_token claims.sub claims.email claims.roles claims.scopes
          (st.nextJti + 1) now
        let sess1 := revoke_token st.sessions claims.jti 3600 now
        match verify_refresh_token refresh now with
        | .error e => ⟨⟨st.store, sess1, st.nextJti + 2⟩, .error e,
            [.mintAccess, .mintRefresh, .revoke]⟩
        | .ok rc =>
            let sess2 := create_session sess1 claims.sub rc.jti
            ⟨⟨st.store, sess2, st.nextJti + 2⟩,
             .ok ⟨access, refresh, "Bearer", 3600, joinScopes claims.scopes⟩,
             [.mintAccess, .mintRefresh, .revoke, .session]⟩

/-- server.rs device_poll (lines 418 to 470): fetch the device record,
branch on its status, and on Approved mint tokens for the bound user,
create the session, and delete the device record (both keys). -/
def device_poll (dc : String) (st : SrvState) (now : Nat) : Outcome :=
  match get_device_code st.store now dc with
  | .error e => ⟨st, .error e, [.get]⟩
  | .ok none => ⟨st, .error .deviceCodeNotFound, [.get]⟩
  | .ok (some d) =>
      match d.check_status with
      | .error e => ⟨st, .error e, [.get]⟩
      | .ok _ =>
          match d.user_id with
          | none => ⟨st, .error (.internal "User ID not found"), [.get]⟩
          | some uid =>
              let email := some ("user" ++ uid ++ "@example.com")
              let access := create_access_token uid email ["free_user"] d.scopes st.nextJti now
              let refresh := create_refresh_token uid email ["free_user"] d.scopes
                (st.nextJti + 1) now
              match verify_refresh_token refresh now with
              | .error e => ⟨⟨st.store, st.sessions, st.nextJti + 2⟩, .error e,
                  [.get, .mintAccess, .mintRefresh]⟩
              | .ok rc =>
                  let sessions' := create_session st.sessions uid rc.jti
                  match delete_device_code st.store now dc with
                  | .error e => ⟨⟨st.store, sessions', st.nextJti + 2⟩, .error e,
                      [.get, .mintAccess, .mintRefresh, .session]⟩
                  | .ok store' =>
                      ⟨⟨store', sessions', st.nextJti + 2⟩,
                       .ok ⟨access, refresh, "Bearer", 3600, joinScopes d.scopes⟩,
                       [.get, .mintAccess, .mintRefresh, .session, .del]⟩

/-- Outcome of the device approval handler, whose success payload is a
message rather than a token response. -/
structure ApproveOutcome where
  st : SrvState
  result : Except AuthError String

/-- server.rs approve_device (lines 374 to 416), after bearer
authentication has yielded the approving user id: look the record up via
the reverse user_code mapping, delete and fail when expired, reject a
record that is no longer Pending, otherwise approve, bind the user id and
persist through update_device_code. -/
def approve_device (uc uid : String) (st : SrvState) (now : Nat) : ApproveOutcome :=
  match get_device_code_by_user_code st.store now uc with
  | .error e => ⟨st, .error e⟩
  | .ok none => ⟨st, .error .invalidUserCode⟩
  | .ok (some d) =>
      if d.is_expired now then
        match delete_device_code st.store now d.device_code with
        | .error e => ⟨st, .error e⟩
        | .ok store' => ⟨⟨store', st.sessions, st.nextJti⟩, .error .deviceCodeExpired⟩
      else if d.status ≠ .pending then ⟨st, .error .deviceAlreadyApproved⟩
      else
        let d' := d.approve uid
        match update_device_code st.store now d.device_code d' with
        | .error e => ⟨st, .error e⟩
        | .ok store' =>
            ⟨⟨store', st.sessions, st.nextJti⟩, .ok "Device authorization approved"⟩

-- ===========================================================================
-- Rate limiter.  middleware/rate_limit.rs is not under src (only its
-- integration tests are); the limiter is modelled from spec section 4.5
-- and section 9: a fixed 60 second window per client and endpoint class,
-- a counter incremented on every request, limit and remaining-quota
-- headers on accepted requests, and a 429 with Retry-After and the limit
-- header once the post-increment count exceeds the limit.
-- ===========================================================================

/-- Rate limit counters keyed by the namespaced client and endpoint key,
holding the window bucket and the count within it. -/
def RLState := String → Option (Nat × Nat)

/-- The observable part of a response that went through the limiter. -/
structure RLResponse where
  status : Nat
  limitHeader : Option Nat
  remainingHeader : Option Nat
  retryAfter : Option Nat
deriving DecidableEq, Repr

def RATE_LIMIT_WINDOW_SECS : Nat := 60

/-- Modelled from the spec: one request through the rate limiter for an
endpoint whose configured limit is given.  The counter resets when the
60 second window bucket changes; the post-increment count is compared
against the limit. -/
def rate_limit_request (limit : Nat) (key : String) (st : RLState) (now : Nat) :
    RLState × RLResponse :=
  let bucket := now / RATE_LIMIT_WINDOW_SECS
  let prev := match st key with
    | some (b, c) => if b = bucket then c else 0
    | none => 0
  let c := prev + 1
  let st' : RLState := fun k => if k = key then some (bucket, c) else st k
  (st',
   if c > limit then
     ⟨429, some limit, none, some ((bucket + 1) * RATE_LIMIT_WINDOW_SECS - now)⟩
   else
     ⟨200, some limit, some (limit - c), none⟩)

/-- The limiter state after k same-key requests at time t. -/
def rl_state_after (limit : Nat) (key : String) (t : Nat) (st0 : RLState) : Nat → RLState
  | 0 => st0
  | k + 1 => (rate_limit_request limit key (rl_state_after limit key t st0 k) t).1

-- ===========================================================================
-- Forgot-password handler, from password_reset_handlers.rs lines 21 to 64.
-- The user repository, email manager and rate limiter it calls are outside
-- src and enter the model as oracle inputs; the handler itself is embedded
-- exactly: the rate-limited branch, the unknown-user branch and the
-- known-user branch (with the email outcome logged and ignored) all reach
-- the same response.
-- ===========================================================================

/-- A user row as returned by the user repository. -/
structure UserRow where
  id : String
  email : String
deriving DecidableEq, Repr

/-- An HTTP response as seen by the caller of the password endpoints. -/
structure HttpResp where
  status : Nat
  message : String
deriving DecidableEq, Repr

def forgotPasswordMessage : String :=
  "If an account exists with this email, a password reset link has been sent."

/-- password_reset_handlers.rs forgot_password: the stored reset tokens are
the only state it mutates; rateRemaining is the quota the rate limiter
reports, user the repository lookup result, emailSendOk the outcome of the
email send. -/
def forgot_password (rateRemaining : Nat) (user : Option UserRow) (emailSendOk : Bool)
    (tokens : List (String × String)) (freshToken : String) :
    List (String × String) × HttpResp :=
  if rateRemaining = 0 then
    (tokens, ⟨200, forgotPasswordMessage⟩)
  else
    match user with
    | none => (tokens, ⟨200, forgotPasswordMessage⟩)
    | some u =>
        let tokens' := (freshToken, u.id) :: tokens
        match emailSendOk with
        | true => (tokens', ⟨200, forgotPasswordMessage⟩)
        | false => (tokens', ⟨200, forgotPasswordMessage⟩)

-- ===========================================================================
-- Claim theorems.
-- ===========================================================================

/-- C9: the forgot-password endpoint returns the same HTTP status and body
whether or not the named user exists, and likewise when the rate limit is
exhausted or the email send fails; the response reveals nothing about
account existence. -/
theorem forgot_password_uniform_response :
    ∀ (r1 r2 : Nat) (u1 u2 : Option UserRow) (e1 e2 : Bool)
      (tk1 tk2 : List (String × String)) (f1 f2 : String),
      (forgot_password r1 u1 e1 tk1 f1).2 = (forgot_password r2 u2 e2 tk2 f2).2 := by
  have h : ∀ r u e tk f, (forgot_password r u e tk f).2 = ⟨200, forgotPasswordMessage⟩ := by
    intro r u e tk f
    unfold forgot_password
    split
    · rfl
    · cases u with
      | none => rfl
      | some x => cases e <;> rfl
  intro r1 r2 u1 u2 e1 e2 tk1 tk2 f1 f2
  rw [h, h]

/-- C3: PKCE verification accepts exactly the challenge equal to
base64url-no-pad(SHA-256(verifier)); a record created with challenge
S256(v) validates against v, and with any other stored challenge the
exchange fails with the PKCE-mismatch error. -/
theorem pkce_s256_exact_match (a : AuthorizationCode) (v : String) :
    (a.verify_pkce v = .ok () ↔ a.code_challenge = s256Challenge v)
    ∧ (a.code_challenge ≠ s256Challenge v →
        a.verify_pkce v = .error .invalidPkceVerifier)
    ∧ (∀ (req : ExchangeReq) (st : SrvState) (now : Nat),
        get_auth_code st.store now req.code = .ok (some a) →
        a.used = false →
        a.is_expired now = false →
        a.code_challenge ≠ s256Challenge req.code_verifier →
        (exchange_authorization_code req st now now).result = .error .invalidPkceVerifier) := by
  refine ⟨?_, ?_, ?_⟩
  · unfold AuthorizationCode.verify_pkce
    split <;> simp_all
  · intro hne
    unfold AuthorizationCode.verify_pkce
    split <;> simp_all
  · intro req st now hget hused hexp hne
    have hv : a.verify_pkce req.code_verifier = .error .invalidPkceVerifier := by
      unfold AuthorizationCode.verify_pkce
      split <;> simp_all
    simp only [exchange_authorization_code, hget, hused, hexp, hv]
    simp

def rfcVerifier : String := "dBjftJeZ4CVP-mB92K27uhbUJU1p1r_wW1gFWFOEjXk"

def rfcChallenge : String := "E9Melhoa2OwvFrEMTJguCHaoeK1t8URWbuGJSstw-cM"

def pkceRecord : AuthorizationCode :=
  ⟨"code1", "client1", "https://app/cb", "42", ["read"], rfcChallenge, false, 300⟩

def pkceStore : Store :=
  fun k => if k = authKey "code1" then some ⟨.auth pkceRecord, 300⟩ else none

def pkceSt : SrvState := ⟨pkceStore, ⟨[], []⟩, 0⟩

def pkceReqBad : ExchangeReq := ⟨"code1", "wrong-verifier", "https://app/cb", "client1"⟩

/-- Witness for C3 at the RFC 7636 test vector: the matching verifier
validates, a non-matching verifier is rejected, and the exchange fails
with the PKCE-mismatch error. -/
theorem pkce_s256_exact_match_witness :
    (pkceRecord.verify_pkce rfcVerifier = .ok ())
    ∧ (pkceRecord.verify_pkce "wrong-verifier" = .error .invalidPkceVerifier)
    ∧ (exchange_authorization_code pkceReqBad pkceSt 5 5).result =
        .error .invalidPkceVerifier :=
  ⟨(pkce_s256_exact_match pkceRecord rfcVerifier).1.mpr (by decide),
   (pkce_s256_exact_match pkceRecord "wrong-verifier").2.1 (by decide),
   (pkce_s256_exact_match pkceRecord "unused").2.2 pkceReqBad pkceSt 5
     (by decide) (by decide) (by decide) (by decide)⟩

/-- A freshly minted refresh token verifies successfully at the time it was
minted. -/
theorem verify_refresh_fresh (sub : String) (email : Option String)
    (roles scopes : List String) (jti now : Nat) :
    verify_refresh_token (create_refresh_token sub email roles scopes jti now) now =
      .ok ⟨sub, email, roles, scopes, jti, now + REFRESH_TOKEN_TTL_SECS⟩ := by
  have hlt : now < now + REFRESH_TOKEN_TTL_SECS := by
    unfold REFRESH_TOKEN_TTL_SECS
    omega
  unfold verify_refresh_token create_refresh_token
  simp [hlt]

/-- update_auth_code is a no-op returning success whenever the remaining
TTL of the key is not positive (storage.rs lines 136 to 142). -/
theorem update_auth_code_noop (s : Store) (now : Nat) (code : String)
    (a : AuthorizationCode) (h : s.ttl now (authKey code) ≤ 0) :
    update_auth_code s now code a = .ok s := by
  simp only [update_auth_code]
  split
  next hgt => exact absurd hgt (by omega)
  next => rfl

/-- A key whose TTL is not positive yields nothing on GET. -/
theorem get_none_of_ttl_nonpos (s : Store) (now : Nat) (k : String)
    (h : s.ttl now k ≤ 0) : s.get now k = none := by
  unfold Store.get
  unfold Store.ttl at h
  rcases he : s k with _ | e
  · simp only [he]
  · simp only [he] at h ⊢
    have hnlt : ¬ now < e.expiresAt := by
      intro hlt
      rw [if_pos hlt] at h
      omega
    rw [if_neg hnlt]

/-- C10: update_auth_code called when the remaining TTL of the stored key
is not positive performs no store write yet still returns success, and the
exchange therefore proceeds to mint tokens (when the key expired between
its get round trip at t1 and its update round trip at t2) even though the
used flag was never persisted. -/
theorem update_auth_code_ttl_gap :
    (∀ (s : Store) (now : Nat) (code : String) (a : AuthorizationCode),
        s.ttl now (authKey code) ≤ 0 → update_auth_code s now code a = .ok s)
    ∧ (∀ (req : ExchangeReq) (st : SrvState) (t1 t2 : Nat) (rec : AuthorizationCode),
        get_auth_code st.store t1 req.code = .ok (some rec) →
        rec.used = false →
        rec.is_expired t1 = false →
        rec.code_challenge = s256Challenge req.code_verifier →
        rec.client_id = req.client_id →
        rec.redirect_uri = req.redirect_uri →
        st.store.ttl t2 (authKey req.code) ≤ 0 →
        (∃ resp, (exchange_authorization_code req st t1 t2).result = .ok resp)
        ∧ (exchange_authorization_code req st t1 t2).st.store = st.store
        ∧ get_auth_code (exchange_authorization_code req st t1 t2).st.store t2 req.code =
            .ok none) := by
  refine ⟨update_auth_code_noop, ?_⟩
  intro req st t1 t2 rec hget hused hexp hch hcid hru httl
  have hv : rec.verify_pkce req.code_verifier = .ok () := by
    unfold AuthorizationCode.verify_pkce
    simp [hch]
  have hids : rec.client_id = req.client_id ∧ rec.redirect_uri = req.redirect_uri :=
    ⟨hcid, hru⟩
  have hex : exchange_authorization_code req st t1 t2 =
      (let o := exchange_commit_phase req rec st t2
       ⟨o.st, o.result, .get :: o.events⟩) := by
    simp only [exchange_authorization_code, hget, hused, hexp, hv, Bool.false_eq_true,
      if_false, if_pos hids]
  rw [hex]
  simp only [exchange_commit_phase, update_auth_code_noop st.store t2 req.code
    rec.mark_as_used httl, verify_refresh_fresh]
  refine ⟨⟨_, rfl⟩, by trivial, ?_⟩
  unfold get_auth_code
  rw [get_none_of_ttl_nonpos st.store t2 (authKey req.code) httl]

def gapRecord : AuthorizationCode :=
  ⟨"code2", "client1", "https://app/cb", "7", ["read"], rfcChallenge, false, 10⟩

def gapStore : Store :=
  fun k => if k = authKey "code2" then some ⟨.auth gapRecord, 10⟩ else none

def gapSt : SrvState := ⟨gapStore, ⟨[], []⟩, 0⟩

def gapReq : ExchangeReq := ⟨"code2", rfcVerifier, "https://app/cb", "client1"⟩

/-- Witness for C10: the key is alive at the get round trip (time 5) but
expired at the update round trip (time 20); the exchange still mints
tokens, the store is unchanged, and no used flag was persisted. -/
theorem update_auth_code_ttl_gap_witness :
    (∃ resp, (exchange_authorization_code gapReq gapSt 5 20).result = .ok resp)
    ∧ (exchange_authorization_code gapReq gapSt 5 20).st.store = gapSt.store
    ∧ get_auth_code (exchange_authorization_code gapReq gapSt 5 20).st.store 20
        gapReq.code = .ok none :=
  update_auth_code_ttl_gap.2 gapReq gapSt 5 20 gapRecord (by decide) (by decide)
    (by decide) (by decide) (by decide) (by decide) (by decide)

/-- A live GET implies a positive remaining TTL. -/
theorem ttl_pos_of_get_some (s : Store) (now : Nat) (k : String) (v : Val)
    (h : s.get now k = some v) : 0 < s.ttl now k := by
  unfold Store.get at h
  unfold Store.ttl
  rcases he : s k with _ | e
  · simp only [he] at h
    exact absurd h (by simp)
  · simp only [he] at h ⊢
    by_cases hlt : now < e.expiresAt
    · rw [if_pos hlt]
      omega
    · rw [if_neg hlt] at h
      exact absurd h (by simp)

/-- Inversion for get_auth_code: a record comes from a live auth value
under the authcode key. -/
theorem auth_get_inv (s : Store) (now : Nat) (code : String) (rec : AuthorizationCode)
    (h : get_auth_code s now code = .ok (some rec)) :
    s.get now (authKey code) = some (.auth rec) := by
  unfold get_auth_code at h
  rcases hv : s.get now (authKey code) with _ | v
  · rw [hv] at h
    exact absurd h (by simp)
  · rw [hv] at h
    cases v with
    | auth a =>
        simp only [Except.ok.injEq, Option.some.injEq] at h
        rw [h]
    | device d => exact absurd h (by simp)
    | str s2 => exact absurd h (by simp)

/-- Inversion for get_device_code. -/
theorem device_get_inv (s : Store) (now : Nat) (dc : String) (d : DeviceCode)
    (h : get_device_code s now dc = .ok (some d)) :
    s.get now (deviceKey dc) = some (.device d) := by
  unfold get_device_code at h
  rcases hv : s.get now (deviceKey dc) with _ | v
  · rw [hv] at h
    exact absurd h (by simp)
  · rw [hv] at h
    cases v with
    | auth a => exact absurd h (by simp)
    | device d2 =>
        simp only [Except.ok.injEq, Option.some.injEq] at h
        rw [h]
    | str s2 => exact absurd h (by simp)

/-- GET on the key just written by SET EX. -/
theorem store_get_setEx_same (s : Store) (now w : Nat) (k : String) (v : Val) (ttl : Nat)
    (h : w < now + ttl) : (s.setEx now k v ttl).get w k = some v := by
  unfold Store.get Store.setEx
  simp [h]

/-- GET on a different key is unaffected by SET EX. -/
theorem store_get_setEx_other (s : Store) (now w : Nat) (k k2 : String) (v : Val) (ttl : Nat)
    (h : k2 ≠ k) : (s.setEx now k v ttl).get w k2 = s.get w k2 := by
  unfold Store.get Store.setEx
  simp [h]

/-- DEL removes its key. -/
theorem store_del_same (s : Store) (k : String) : (s.del k) k = none := by
  unfold Store.del
  simp

/-- DEL keeps other keys. -/
theorem store_del_other (s : Store) (k k2 : String) (h : k2 ≠ k) :
    (s.del k) k2 = s k2 := by
  unfold Store.del
  simp [h]

/-- The store produced by a TTL-preserving update_auth_code write. -/
def updatedAuthStore (s : Store) (now : Nat) (code : String) (a : AuthorizationCode) : Store :=
  s.setEx now (authKey code) (.auth a) ((s.ttl now (authKey code)).toNat)

/-- update_auth_code writes exactly when the remaining TTL is positive. -/
theorem update_auth_code_writes (s : Store) (now : Nat) (code : String)
    (a : AuthorizationCode) (h : 0 < s.ttl now (authKey code)) :
    update_auth_code s now code a = .ok (updatedAuthStore s now code a) := by
  unfold update_auth_code updatedAuthStore
  rw [if_pos h]

/-- The record written by update_auth_code is visible at the same instant. -/
theorem get_auth_code_updated (s : Store) (now : Nat) (code : String)
    (a : AuthorizationCode) (h : 0 < s.ttl now (authKey code)) :
    get_auth_code (updatedAuthStore s now code a) now code = .ok (some a) := by
  unfold get_auth_code updatedAuthStore
  rw [store_get_setEx_same s now now (authKey code) (.auth a) _ (by omega)]

/-- Shape of a successful authorization-code exchange: the record is
persisted as used through update_auth_code, the session is registered
under the fresh refresh jti, and the response carries the minted tokens. -/
theorem exchange_success_shape (req : ExchangeReq) (st : SrvState) (now : Nat)
    (rec : AuthorizationCode)
    (hget : get_auth_code st.store now req.code = .ok (some rec))
    (hused : rec.used = false)
    (hexp : rec.is_expired now = false)
    (hch : rec.code_challenge = s256Challenge req.code_verifier)
    (hcid : rec.client_id = req.client_id)
    (hru : rec.redirect_uri = req.redirect_uri) :
    exchange_authorization_code req st now now =
      ⟨⟨updatedAuthStore st.store now req.code rec.mark_as_used,
        create_session st.sessions rec.user_id (st.nextJti + 1), st.nextJti + 2⟩,
       .ok ⟨create_access_token rec.user_id (some ("user" ++ rec.user_id ++ "@example.com"))
              ["free_user"] rec.scopes st.nextJti now,
            create_refresh_token rec.user_id (some ("user" ++ rec.user_id ++ "@example.com"))
              ["free_user"] rec.scopes (st.nextJti + 1) now,
            "Bearer", 3600, joinScopes rec.scopes⟩,
       [.get, .update, .mintAccess, .mintRefresh, .session]⟩ := by
  have hv : rec.verify_pkce req.code_verifier = .ok () := by
    unfold AuthorizationCode.verify_pkce
    simp [hch]
  have httl : 0 < st.store.ttl now (authKey req.code) :=
    ttl_pos_of_get_some _ _ _ _ (auth_get_inv _ _ _ _ hget)
  have hupd := update_auth_code_writes st.store now req.code rec.mark_as_used httl
  simp only [exchange_authorization_code, hget, hused, hexp, hv, Bool.false_eq_true,
    if_false, if_pos (⟨hcid, hru⟩ : rec.client_id = req.client_id ∧
      rec.redirect_uri = req.redirect_uri),
    exchange_commit_phase, hupd, verify_refresh_fresh]

/-- C1: in the authorization-code exchange, a stored record with used=true
fails with the distinct reuse error and mints nothing; otherwise tokens are
minted exactly when the record exists, is unexpired, the recomputed S256
challenge matches, and client_id and redirect_uri equal the record; on
success the used flag is persisted by the update write, which the event
trace places before any token mint. -/
theorem exchange_auth_code_contract (req : ExchangeReq) (st : SrvState) (now : Nat) :
    (get_auth_code st.store now req.code = .ok none →
        exchange_authorization_code req st now now =
          ⟨st, .error .invalidAuthCode, [.get]⟩)
    ∧ (∀ rec, get_auth_code st.store now req.code = .ok (some rec) →
        (rec.used = true →
            (exchange_authorization_code req st now now).result = .error .authCodeReused
            ∧ Ev.mintAccess ∉ (exchange_authorization_code req st now now).events
            ∧ Ev.mintRefresh ∉ (exchange_authorization_code req st now now).events)
        ∧ ((∃ resp, (exchange_authorization_code req st now now).result = .ok resp) ↔
            rec.used = false ∧ rec.is_expired now = false
            ∧ rec.code_challenge = s256Challenge req.code_verifier
            ∧ rec.client_id = req.client_id ∧ rec.redirect_uri = req.redirect_uri)
        ∧ (∀ resp, (exchange_authorization_code req st now now).result = .ok resp →
            get_auth_code (exchange_authorization_code req st now now).st.store now req.code
              = .ok (some rec.mark_as_used)
            ∧ (exchange_authorization_code req st now now).events
              = [.get, .update, .mintAccess, .mintRefresh, .session])) := by
  constructor
  · intro hget
    unfold exchange_authorization_code
    rw [hget]
  · intro rec hget
    by_cases hu : rec.used = true
    · have ho : exchange_authorization_code req st now now =
          ⟨st, .error .authCodeReused, [.get]⟩ := by
        unfold exchange_authorization_code
        rw [hget]
        simp [hu]
      rw [ho]
      refine ⟨fun _ => ⟨rfl, by simp, by simp⟩, ?_, ?_⟩
      · constructor
        · rintro ⟨resp, hresp⟩
          exact absurd hresp (by simp)
        · rintro ⟨h1, _⟩
          rw [hu] at h1
          exact absurd h1 (by simp)
      · intro resp hresp
        exact absurd hresp (by simp)
    · replace hu : rec.used = false := by simpa using hu
      by_cases hexp : rec.is_expired now = true
      · have ho : exchange_authorization_code req st now now =
            ⟨⟨delete_auth_code st.store req.code, st.sessions, st.nextJti⟩,
             .error .invalidAuthCode, [.get, .del]⟩ := by
          unfold exchange_authorization_code
          rw [hget]
          simp [hu, hexp]
        rw [ho]
        refine ⟨?_, ?_, ?_⟩
        · intro h1
          rw [hu] at h1
          exact absurd h1 (by simp)
        · constructor
          · rintro ⟨resp, hresp⟩
            exact absurd hresp (by simp)
          · rintro ⟨_, h2, _⟩
            rw [hexp] at h2
            exact absurd h2 (by simp)
        · intro resp hresp
          exact absurd hresp (by simp)
      · replace hexp : rec.is_expired now = false := by simpa using hexp
        by_cases hch : rec.code_challenge = s256Challenge req.code_verifier
        · by_cases hids : rec.client_id = req.client_id ∧ rec.redirect_uri = req.redirect_uri
          · have ho := exchange_success_shape req st now rec hget hu hexp hch hids.1 hids.2
            have httl : 0 < st.store.ttl now (authKey req.code) :=
              ttl_pos_of_get_some _ _ _ _ (auth_get_inv _ _ _ _ hget)
            rw [ho]
            refine ⟨?_, ?_, ?_⟩
            · intro h1
              rw [hu] at h1
              exact absurd h1 (by simp)
            · constructor
              · intro _
                exact ⟨hu, hexp, hch, hids.1, hids.2⟩
              · intro _
                exact ⟨_, rfl⟩
            · intro resp hresp
              exact ⟨get_auth_code_updated _ _ _ _ httl, rfl⟩
          · have hv : rec.verify_pkce req.code_verifier = .ok () := by
              unfold AuthorizationCode.verify_pkce
              simp [hch]
            have ho : exchange_authorization_code req st now now =
                ⟨st, .error .invalidClient, [.get]⟩ := by
              unfold exchange_authorization_code
              rw [hget]
              simp [hu, hexp, hv, hids]
            rw [ho]
            refine ⟨?_, ?_, ?_⟩
            · intro h1
              rw [hu] at h1
              exact absurd h1 (by simp)
            · constructor
              · rintro ⟨resp, hresp⟩
                exact absurd hresp (by simp)
              · rintro ⟨_, _, _, h4, h5⟩
                exact absurd ⟨h4, h5⟩ hids
            · intro resp hresp
              exact absurd hresp (by simp)
        · have hv : rec.verify_pkce req.code_verifier = .error .invalidPkceVerifier := by
            unfold AuthorizationCode.verify_pkce
            simp [hch]
          have ho : exchange_authorization_code req st now now =
              ⟨st, .error .invalidPkceVerifier, [.get]⟩ := by
            unfold exchange_authorization_code
            rw [hget]
            simp [hu, hexp, hv]
          rw [ho]
          refine ⟨?_, ?_, ?_⟩
          · intro h1
            rw [hu] at h1
            exact absurd h1 (by simp)
          · constructor
            · rintro ⟨resp, hresp⟩
              exact absurd hresp (by simp)
            · rintro ⟨_, _, h3, _⟩
              exact absurd h3 hch
          · intro resp hresp
            exact absurd hresp (by simp)

def usedRec : AuthorizationCode :=
  ⟨"codeU", "client1", "https://app/cb", "7", ["read"], rfcChallenge, true, 300⟩

def usedSt : SrvState :=
  ⟨fun k => if k = authKey "codeU" then some ⟨.auth usedRec, 300⟩ else none, ⟨[], []⟩, 0⟩

def usedReq : ExchangeReq := ⟨"codeU", rfcVerifier, "https://app/cb", "client1"⟩

def okRec : AuthorizationCode :=
  ⟨"codeS", "client1", "https://app/cb", "7", ["read"], rfcChallenge, false, 300⟩

def okSt : SrvState :=
  ⟨fun k => if k = authKey "codeS" then some ⟨.auth okRec, 300⟩ else none, ⟨[], []⟩, 0⟩

def okReq : ExchangeReq := ⟨"codeS", rfcVerifier, "https://app/cb", "client1"⟩

/-- Witness for C1: a used record yields the reuse error, and a fresh valid
record yields a successful token response. -/
theorem exchange_auth_code_contract_witness :
    (exchange_authorization_code usedReq usedSt 5 5).result = .error .authCodeReused
    ∧ (∃ resp, (exchange_authorization_code okReq okSt 5 5).result = .ok resp) :=
  ⟨(((exchange_auth_code_contract usedReq usedSt 5).2 usedRec (by decide)).1 (by decide)).1,
   ((exchange_auth_code_contract okReq okSt 5).2 okRec (by decide)).2.1.mpr
     ⟨by decide, by decide, by decide, by decide, by decide⟩⟩

/-- C2: counter-evidence for the claimed atomic compare-and-swap.  The
exchange handler factors into a read phase (GET plus validation,
server.rs lines 150 to 174) and a commit phase (TTL read, SETEX, minting,
lines 176 to 209), separated by an await suspension point.  When two
exchanges of the same single-use code both run their read phase against
the same store state before either commits, both commits succeed and both
mint tokens; the final conjunct checks that the phase decomposition is the
handler itself. -/
theorem auth_code_race_both_succeed :
    okRec.used = false
    ∧ exchange_read_phase okReq okSt.store 5 = .ok okRec
    ∧ (∃ t1, (exchange_commit_phase okReq okRec okSt 5).result = .ok t1)
    ∧ (∃ t2, (exchange_commit_phase okReq okRec
         (exchange_commit_phase okReq okRec okSt 5).st 5).result = .ok t2)
    ∧ exchange_authorization_code okReq okSt 5 5 =
        ⟨(exchange_commit_phase okReq okRec okSt 5).st,
         (exchange_commit_phase okReq okRec okSt 5).result,
         .get :: (exchange_commit_phase okReq okRec okSt 5).events⟩ :=
  ⟨by decide, by decide, ⟨_, rfl⟩, ⟨_, rfl⟩, rfl⟩

/-- Inversion for verify_refresh_token. -/
theorem verify_refresh_inv (t : Token) (now : Nat) (c : Claims)
    (h : verify_refresh_token t now = .ok c) :
    c = t.claims ∧ t.kind = .refresh ∧ now < t.claims.exp := by
  unfold verify_refresh_token at h
  by_cases hk : t.kind = .refresh
  · rw [if_pos hk] at h
    by_cases he : now < t.claims.exp
    · rw [if_pos he] at h
      simp only [Except.ok.injEq] at h
      exact ⟨h.symm, hk, he⟩
    · rw [if_neg he] at h
      exact absurd h (by simp)
  · rw [if_neg hk] at h
    exact absurd h (by simp)

/-- C4: a successful refresh revokes the jti of the presented refresh token
in the state returned with the response, so a second refresh with the old
token fails with the token-revoked error, while the newly issued refresh
token verifies successfully and its jti is not revoked. -/
theorem refresh_rotation_contract (tok : Token) (st : SrvState) (now : Nat)
    (hfresh : ∀ p ∈ st.sessions.revoked, p.1 < st.nextJti)
    (hjti : tok.claims.jti < st.nextJti) :
    ∀ resp, (refresh_access_token tok st now).result = .ok resp →
      is_token_revoked (refresh_access_token tok st now).st.sessions tok.claims.jti now = true
      ∧ (refresh_access_token tok (refresh_access_token tok st now).st now).result =
          .error (.invalidToken "Token revoked")
      ∧ verify_refresh_token resp.refresh_token now = .ok resp.refresh_token.claims
      ∧ is_token_revoked (refresh_access_token tok st now).st.sessions
          resp.refresh_token.claims.jti now = false := by
  intro resp hok
  rcases hv : verify_refresh_token tok now with e | claims
  · have : refresh_access_token tok st now = ⟨st, .error e, []⟩ := by
      unfold refresh_access_token
      rw [hv]
    rw [this] at hok
    exact absurd hok (by simp)
  · obtain ⟨hc, hk, he⟩ := verify_refresh_inv tok now claims hv
    subst hc
    by_cases hr : is_token_revoked st.sessions tok.claims.jti now = true
    · have : refresh_access_token tok st now =
          ⟨st, .error (.invalidToken "Token revoked"), []⟩ := by
        unfold refresh_access_token
        rw [hv]
        simp [hr]
      rw [this] at hok
      exact absurd hok (by simp)
    · replace hr : is_token_revoked st.sessions tok.claims.jti now = false := by
        simpa using hr
      have ho : refresh_access_token tok st now =
          ⟨⟨st.store,
            create_session (revoke_token st.sessions tok.claims.jti 3600 now)
              tok.claims.sub (st.nextJti + 1), st.nextJti + 2⟩,
           .ok ⟨create_access_token tok.claims.sub tok.claims.email tok.claims.roles
                  tok.claims.scopes st.nextJti now,
                create_refresh_token tok.claims.sub tok.claims.email tok.claims.roles
                  tok.claims.scopes (st.nextJti + 1) now,
                "Bearer", 3600, joinScopes tok.claims.scopes⟩,
           [.mintAccess, .mintRefresh, .revoke, .session]⟩ := by
        unfold refresh_access_token
        rw [hv]
        simp only [hr, Bool.false_eq_true, if_false, verify_refresh_fresh]
      rw [ho] at hok
      simp only [Except.ok.injEq] at hok
      subst hok
      have hrev1 : is_token_revoked
          (create_session (revoke_token st.sessions tok.claims.jti 3600 now)
            tok.claims.sub (st.nextJti + 1)) tok.claims.jti now = true := by
        unfold is_token_revoked create_session revoke_token
        simp
      refine ⟨by rw [ho]; exact hrev1, ?_, ?_, ?_⟩
      · rw [ho]
        unfold refresh_access_token
        rw [hv]
        simp only [hrev1, if_true]
      · exact verify_refresh_fresh _ _ _ _ _ _
      · rw [ho]
        show is_token_revoked
          (create_session (revoke_token st.sessions tok.claims.jti 3600 now)
            tok.claims.sub (st.nextJti + 1)) (st.nextJti + 1) now = false
        unfold is_token_revoked create_session revoke_token
        simp only [List.any_cons, List.any_eq_false, Bool.or_eq_false_iff]
        constructor
        · have : tok.claims.jti ≠ st.nextJti + 1 := by omega
          simp [this]
        · intro p hp
          have hlt := hfresh p hp
          have : p.1 ≠ st.nextJti + 1 := by omega
          simp [this]

def refreshTok : Token :=
  ⟨.refresh, ⟨"u7", some "u7@example.com", ["free_user"], ["read"], 0, 100⟩⟩

def refreshSt : SrvState := ⟨fun _ => none, ⟨[], []⟩, 1⟩

def refreshResp : TokenResponse :=
  ⟨create_access_token "u7" (some "u7@example.com") ["free_user"] ["read"] 1 5,
   create_refresh_token "u7" (some "u7@example.com") ["free_user"] ["read"] 2 5,
   "Bearer", 3600, joinScopes ["read"]⟩

/-- Witness for C4 at a concrete refresh: the old jti 0 ends up revoked, a
second use of the old token is rejected, and the new refresh token with
jti 2 verifies and is not revoked. -/
theorem refresh_rotation_contract_witness :
    is_token_revoked (refresh_access_token refreshTok refreshSt 5).st.sessions
      refreshTok.claims.jti 5 = true
    ∧ (refresh_access_token refreshTok
        (refresh_access_token refreshTok refreshSt 5).st 5).result =
        .error (.invalidToken "Token revoked")
    ∧ verify_refresh_token refreshResp.refresh_token 5 = .ok refreshResp.refresh_token.claims
    ∧ is_token_revoked (refresh_access_token refreshTok refreshSt 5).st.sessions
        refreshResp.refresh_token.claims.jti 5 = false :=
  refresh_rotation_contract refreshTok refreshSt 5 (by intro p hp; simp [refreshSt] at hp)
    (by decide) refreshResp (by decide)

/-- Deleting k1 then k2 leaves nothing under k1. -/
theorem del_del_first_none (s : Store) (k1 k2 : String) :
    ((s.del k1).del k2) k1 = none := by
  by_cases h : k1 = k2
  · subst h
    exact store_del_same _ _
  · rw [store_del_other _ _ _ h]
    exact store_del_same _ _

/-- A key absent from the raw map yields nothing on GET. -/
theorem store_get_none_of_raw_none (s : Store) (w : Nat) (k : String) (h : s k = none) :
    s.get w k = none := by
  unfold Store.get
  rw [h]

/-- C5: the first poll of an Approved device record mints tokens bound to
the stored user_id and scopes, registers the refresh jti with the session
manager, deletes the record under both the primary and the reverse key,
and a second poll with the same device_code fails with not-found. -/
theorem device_poll_approved_consumes (dc uid : String) (st : SrvState) (now : Nat)
    (d : DeviceCode)
    (hget : get_device_code st.store now dc = .ok (some d))
    (hst : d.status = .approved)
    (huid : d.user_id = some uid) :
    ∃ resp, (device_poll dc st now).result = .ok resp
      ∧ resp.access_token.claims.sub = uid
      ∧ resp.access_token.claims.scopes = d.scopes
      ∧ resp.refresh_token.claims.sub = uid
      ∧ resp.refresh_token.claims.scopes = d.scopes
      ∧ (uid, resp.refresh_token.claims.jti) ∈ (device_poll dc st now).st.sessions.sessions
      ∧ (device_poll dc st now).st.store (deviceKey dc) = none
      ∧ (device_poll dc st now).st.store (deviceUserKey d.user_code) = none
      ∧ (device_poll dc (device_poll dc st now).st now).result = .error .deviceCodeNotFound := by
  have hcs : d.check_status = .ok () := by
    unfold DeviceCode.check_status
    rw [hst]
  have hdel : delete_device_code st.store now dc =
      .ok ((st.store.del (deviceUserKey d.user_code)).del (deviceKey dc)) := by
    unfold delete_device_code
    rw [hget]
  have ho : device_poll dc st now =
      ⟨⟨(st.store.del (deviceUserKey d.user_code)).del (deviceKey dc),
        create_session st.sessions uid (st.nextJti + 1), st.nextJti + 2⟩,
       .ok ⟨create_access_token uid (some ("user" ++ uid ++ "@example.com"))
              ["free_user"] d.scopes st.nextJti now,
            create_refresh_token uid (some ("user" ++ uid ++ "@example.com"))
              ["free_user"] d.scopes (st.nextJti + 1) now,
            "Bearer", 3600, joinScopes d.scopes⟩,
       [.get, .mintAccess, .mintRefresh, .session, .del]⟩ := by
    simp only [device_poll, hget, hcs, huid, verify_refresh_fresh, hdel]
  have hg2 : get_device_code
      ((st.store.del (deviceUserKey d.user_code)).del (deviceKey dc)) now dc = .ok none := by
    unfold get_device_code
    rw [store_get_none_of_raw_none _ _ _ (store_del_same _ _)]
  refine ⟨_, by rw [ho], rfl, rfl, rfl, rfl, ?_, ?_, ?_, ?_⟩
  · rw [ho]
    show (uid, st.nextJti + 1) ∈ (uid, st.nextJti + 1) :: st.sessions.sessions
    exact List.mem_cons_self _ _
  · rw [ho]
    exact store_del_same _ _
  · rw [ho]
    exact del_del_first_none _ _ _
  · rw [ho]
    simp only [device_poll, hg2]

def apprDevice : DeviceCode :=
  ⟨"dcA", "UC-1234", "client1", ["read", "write"], .approved, some "u9", 900⟩

def apprStore : Store := fun k =>
  if k = deviceKey "dcA" then some ⟨.device apprDevice, 900⟩
  else if k = deviceUserKey "UC-1234" then some ⟨.str "dcA", 900⟩
  else none

def apprSt : SrvState := ⟨apprStore, ⟨[], []⟩, 0⟩

/-- Witness for C5 at a concrete Approved device record. -/
theorem device_poll_approved_consumes_witness :
    ∃ resp, (device_poll "dcA" apprSt 5).result = .ok resp
      ∧ resp.access_token.claims.sub = "u9"
      ∧ resp.access_token.claims.scopes = apprDevice.scopes
      ∧ resp.refresh_token.claims.sub = "u9"
      ∧ resp.refresh_token.claims.scopes = apprDevice.scopes
      ∧ ("u9", resp.refresh_token.claims.jti) ∈ (device_poll "dcA" apprSt 5).st.sessions.sessions
      ∧ (device_poll "dcA" apprSt 5).st.store (deviceKey "dcA") = none
      ∧ (device_poll "dcA" apprSt 5).st.store (deviceUserKey apprDevice.user_code) = none
      ∧ (device_poll "dcA" (device_poll "dcA" apprSt 5).st 5).result =
          .error .deviceCodeNotFound :=
  device_poll_approved_consumes "dcA" "u9" apprSt 5 apprDevice (by decide) (by decide)
    (by decide)

def expDevice : DeviceCode :=
  ⟨"dcE", "UC-EXP", "client1", ["read"], .expired, none, 900⟩

def expStore : Store := fun k =>
  if k = deviceKey "dcE" then some ⟨.device expDevice, 900⟩
  else if k = deviceUserKey "UC-EXP" then some ⟨.str "dcE", 900⟩
  else none

def expSt : SrvState := ⟨expStore, ⟨[], []⟩, 0⟩

/-- Counterexample to C6 as stated: polling a device record whose status is
Expired returns the expired error but does NOT delete the record; the
primary key still holds it after the poll (server.rs device_poll has no
delete on the error path, lines 432 to 433). -/
theorem device_poll_expired_not_deleted :
    (device_poll "dcE" expSt 5).result = .error .deviceCodeExpired
    ∧ (device_poll "dcE" expSt 5).st.store (deviceKey "dcE") =
        some ⟨.device expDevice, 900⟩ := by
  constructor
  · decide
  · decide

/-- C6 (amended): an absent record fails with not-found; a Pending record
yields the authorization-pending error, a Denied record the access-denied
error, and an Expired record the expired error; in each case the handler
returns the state unchanged (no deletion takes place, the record expires
only via its store TTL) and mints nothing. -/
theorem device_poll_status_branches (dc : String) (st : SrvState) (now : Nat) :
    (get_device_code st.store now dc = .ok none →
        device_poll dc st now = ⟨st, .error .deviceCodeNotFound, [.get]⟩)
    ∧ (∀ d, get_device_code st.store now dc = .ok (some d) →
        (d.status = .pending →
            device_poll dc st now = ⟨st, .error .authorizationPending, [.get]⟩)
        ∧ (d.status = .denied →
            device_poll dc st now = ⟨st, .error .accessDenied, [.get]⟩)
        ∧ (d.status = .expired →
            device_poll dc st now = ⟨st, .error .deviceCodeExpired, [.get]⟩)) := by
  constructor
  · intro hget
    unfold device_poll
    rw [hget]
  · intro d hget
    refine ⟨?_, ?_, ?_⟩
    · intro hs
      have hcs : d.check_status = .error .authorizationPending := by
        unfold DeviceCode.check_status
        rw [hs]
      simp only [device_poll, hget, hcs]
    · intro hs
      have hcs : d.check_status = .error .accessDenied := by
        unfold DeviceCode.check_status
        rw [hs]
      simp only [device_poll, hget, hcs]
    · intro hs
      have hcs : d.check_status = .error .deviceCodeExpired := by
        unfold DeviceCode.check_status
        rw [hs]
      simp only [device_poll, hget, hcs]

def pendDevice : DeviceCode :=
  ⟨"dcP", "UC-P", "client1", ["read"], .pending, none, 900⟩

def pendStore : Store := fun k =>
  if k = deviceKey "dcP" then some ⟨.device pendDevice, 900⟩
  else if k = deviceUserKey "UC-P" then some ⟨.str "dcP", 900⟩
  else none

def pendSt : SrvState := ⟨pendStore, ⟨[], []⟩, 0⟩

/-- Witness for the amended C6: a Pending record polls to the
authorization-pending error, an absent code to not-found, an Expired
record to the expired error, all with the state unchanged. -/
theorem device_poll_status_branches_witness :
    device_poll "dcP" pendSt 5 = ⟨pendSt, .error .authorizationPending, [.get]⟩
    ∧ device_poll "missing" pendSt 5 = ⟨pendSt, .error .deviceCodeNotFound, [.get]⟩
    ∧ device_poll "dcE" expSt 5 = ⟨expSt, .error .deviceCodeExpired, [.get]⟩ :=
  ⟨((device_poll_status_branches "dcP" pendSt 5).2 pendDevice (by decide)).1 (by decide),
   (device_poll_status_branches "missing" pendSt 5).1 (by decide),
   ((device_poll_status_branches "dcE" expSt 5).2 expDevice (by decide)).2.2 (by decide)⟩

/-- update_device_code writes exactly when the remaining TTL is positive. -/
theorem update_device_code_writes (s : Store) (now : Nat) (dc : String) (d : DeviceCode)
    (h : 0 < s.ttl now (deviceKey dc)) :
    update_device_code s now dc d =
      .ok (s.setEx now (deviceKey dc) (.device d) ((s.ttl now (deviceKey dc)).toNat)) := by
  unfold update_device_code
  rw [if_pos h]

/-- The record written by update_device_code is visible at the same instant. -/
theorem get_device_code_updated (s : Store) (now : Nat) (dc : String) (d : DeviceCode)
    (h : 0 < s.ttl now (deviceKey dc)) :
    get_device_code (s.setEx now (deviceKey dc) (.device d)
      ((s.ttl now (deviceKey dc)).toNat)) now dc = .ok (some d) := by
  unfold get_device_code
  rw [store_get_setEx_same s now now _ _ _ (by omega)]

/-- C7: device approval fails with invalid-user-code when the reverse
mapping resolves to nothing; an expired record is deleted (both keys) and
the request fails; a record no longer Pending fails with the
already-approved error; on success the record is persisted with status
Approved and the authenticated user bound. -/
theorem approve_device_contract (uc uid : String) (st : SrvState) (now : Nat) :
    (get_device_code_by_user_code st.store now uc = .ok none →
        approve_device uc uid st now = ⟨st, .error .invalidUserCode⟩)
    ∧ (∀ dc d, st.store.get now (deviceUserKey uc) = some (.str dc) →
        st.store.get now (deviceKey dc) = some (.device d) →
        d.device_code = dc →
        ((d.is_expired now = true →
            (approve_device uc uid st now).result = .error .deviceCodeExpired
            ∧ (approve_device uc uid st now).st.store (deviceKey dc) = none
            ∧ (approve_device uc uid st now).st.store (deviceUserKey d.user_code) = none)
        ∧ (d.is_expired now = false → d.status ≠ .pending →
            approve_device uc uid st now = ⟨st, .error .deviceAlreadyApproved⟩)
        ∧ (d.is_expired now = false → d.status = .pending →
            (approve_device uc uid st now).result = .ok "Device authorization approved"
            ∧ get_device_code (approve_device uc uid st now).st.store now dc =
                .ok (some (d.approve uid))))) := by
  constructor
  · intro hget
    simp only [approve_device, hget]
  · intro dc d hrev hprim hkeq
    subst hkeq
    have hbyuc : get_device_code_by_user_code st.store now uc = .ok (some d) := by
      unfold get_device_code_by_user_code
      rw [hrev]
      show get_device_code st.store now d.device_code = .ok (some d)
      unfold get_device_code
      rw [hprim]
    have hgdc : get_device_code st.store now d.device_code = .ok (some d) := by
      unfold get_device_code
      rw [hprim]
    refine ⟨?_, ?_, ?_⟩
    · intro hexp
      have hdel : delete_device_code st.store now d.device_code =
          .ok ((st.store.del (deviceUserKey d.user_code)).del (deviceKey d.device_code)) := by
        unfold delete_device_code
        rw [hgdc]
      have ho : approve_device uc uid st now =
          ⟨⟨(st.store.del (deviceUserKey d.user_code)).del (deviceKey d.device_code),
            st.sessions, st.nextJti⟩, .error .deviceCodeExpired⟩ := by
        simp only [approve_device, hbyuc, hexp, if_true, hdel]
      rw [ho]
      exact ⟨rfl, store_del_same _ _, del_del_first_none _ _ _⟩
    · intro hexp hnp
      have ho : approve_device uc uid st now = ⟨st, .error .deviceAlreadyApproved⟩ := by
        simp only [approve_device, hbyuc, hexp, Bool.false_eq_true, if_false, if_pos hnp]
      exact ho
    · intro hexp hp
      have httl : 0 < st.store.ttl now (deviceKey d.device_code) :=
        ttl_pos_of_get_some _ _ _ _ hprim
      have hupd := update_device_code_writes st.store now d.device_code (d.approve uid) httl
      have ho : approve_device uc uid st now =
          ⟨⟨st.store.setEx now (deviceKey d.device_code) (.device (d.approve uid))
              ((st.store.ttl now (deviceKey d.device_code)).toNat),
            st.sessions, st.nextJti⟩, .ok "Device authorization approved"⟩ := by
        simp only [approve_device, hbyuc, hexp, Bool.false_eq_true, if_false,
          if_neg (by simp [hp] : ¬ d.status ≠ DeviceCodeStatus.pending), hupd]
      rw [ho]
      exact ⟨rfl, get_device_code_updated _ _ _ _ httl⟩

def staleDevice : DeviceCode :=
  ⟨"dcS", "UC-S", "client1", ["read"], .pending, none, 3⟩

def staleStore : Store := fun k =>
  if k = deviceKey "dcS" then some ⟨.device staleDevice, 900⟩
  else if k = deviceUserKey "UC-S" then some ⟨.str "dcS", 900⟩
  else none

def staleSt : SrvState := ⟨staleStore, ⟨[], []⟩, 0⟩

/-- Witness for C7: an unknown user code is rejected, a pending record is
approved and persisted with the user bound, and a record past its
expires_at fails with the expired error. -/
theorem approve_device_contract_witness :
    approve_device "nope" "u5" pendSt 5 = ⟨pendSt, .error .invalidUserCode⟩
    ∧ (approve_device "UC-P" "u5" pendSt 5).result = .ok "Device authorization approved"
    ∧ get_device_code (approve_device "UC-P" "u5" pendSt 5).st.store 5 "dcP" =
        .ok (some (pendDevice.approve "u5"))
    ∧ (approve_device "UC-S" "u5" staleSt 5).result = .error .deviceCodeExpired := by
  have hsucc := ((approve_device_contract "UC-P" "u5" pendSt 5).2 "dcP" pendDevice
    (by decide) (by decide) (by decide)).2.2 (by decide) (by decide)
  exact ⟨(approve_device_contract "nope" "u5" pendSt 5).1 (by decide),
    hsucc.1, hsucc.2,
    (((approve_device_contract "UC-S" "u5" staleSt 5).2 "dcS" staleDevice
      (by decide) (by decide) (by decide)).1 (by decide)).1⟩

/-- Response of the limiter when the key holds a counter for the current
window. -/
theorem rl_request_response (limit : Nat) (key : String) (st : RLState) (now prev : Nat)
    (h : st key = some (now / RATE_LIMIT_WINDOW_SECS, prev)) :
    (rate_limit_request limit key st now).2 =
      (if prev + 1 > limit then
        ⟨429, some limit, none,
         some ((now / RATE_LIMIT_WINDOW_SECS + 1) * RATE_LIMIT_WINDOW_SECS - now)⟩
       else ⟨200, some limit, some (limit - (prev + 1)), none⟩) := by
  unfold rate_limit_request
  simp [h]

/-- Response of the limiter on a key with no counter. -/
theorem rl_request_response_fresh (limit : Nat) (key : String) (st : RLState) (now : Nat)
    (h : st key = none) :
    (rate_limit_request limit key st now).2 =
      (if 1 > limit then
        ⟨429, some limit, none,
         some ((now / RATE_LIMIT_WINDOW_SECS + 1) * RATE_LIMIT_WINDOW_SECS - now)⟩
       else ⟨200, some limit, some (limit - 1), none⟩) := by
  unfold rate_limit_request
  simp [h]

/-- Response of the limiter when the stored counter is from a different
window bucket: the count resets. -/
theorem rl_request_response_newwindow (limit : Nat) (key : String) (st : RLState)
    (now b c : Nat) (h : st key = some (b, c)) (hb : b ≠ now / RATE_LIMIT_WINDOW_SECS) :
    (rate_limit_request limit key st now).2 =
      (if 1 > limit then
        ⟨429, some limit, none,
         some ((now / RATE_LIMIT_WINDOW_SECS + 1) * RATE_LIMIT_WINDOW_SECS - now)⟩
       else ⟨200, some limit, some (limit - 1), none⟩) := by
  unfold rate_limit_request
  simp [h, hb]

/-- The counter under the key after k same-client requests at time t. -/
theorem rl_count (limit : Nat) (key : String) (t : Nat) (st0 : RLState)
    (h0 : st0 key = none) :
    ∀ k, (rl_state_after limit key t st0 k) key =
      (if k = 0 then none else some (t / 60, k)) := by
  intro k
  induction k with
  | zero => simpa using h0
  | succ n ih =>
      show (rate_limit_request limit key (rl_state_after limit key t st0 n) t).1 key = _
      unfold rate_limit_request
      simp only [ih]
      by_cases hn : n = 0
      · subst hn
        simp [RATE_LIMIT_WINDOW_SECS]
      · simp [hn, RATE_LIMIT_WINDOW_SECS]

/-- C8: with the endpoint limit configured to N, each of the first N
same-client requests within one window succeeds with status 200 and the
limit and remaining headers; the (N+1)-th returns 429 with Retry-After
and the limit header equal to N; once the 60 second window has elapsed a
subsequent request succeeds again. -/
theorem rate_limit_window_contract (N : Nat) (key : String) (t : Nat) (st0 : RLState)
    (h0 : st0 key = none) (hN : 1 ≤ N) :
    (∀ i, i < N →
        (rate_limit_request N key (rl_state_after N key t st0 i) t).2 =
          ⟨200, some N, some (N - (i + 1)), none⟩)
    ∧ (rate_limit_request N key (rl_state_after N key t st0 N) t).2 =
        ⟨429, some N, none, some ((t / 60 + 1) * 60 - t)⟩
    ∧ (∀ t2, t + 60 ≤ t2 →
        (rate_limit_request N key (rl_state_after N key t st0 (N + 1)) t2).2.status = 200) := by
  have hcount := rl_count N key t st0 h0
  refine ⟨?_, ?_, ?_⟩
  · intro i hi
    by_cases hi0 : i = 0
    · subst hi0
      rw [rl_request_response_fresh N key _ t (by simpa using hcount 0)]
      rw [if_neg (by omega)]
    · rw [rl_request_response N key _ t i (by rw [hcount i]; simp [hi0, RATE_LIMIT_WINDOW_SECS])]
      rw [if_neg (by omega)]
  · have hN0 : N ≠ 0 := by omega
    rw [rl_request_response N key _ t N
      (by rw [hcount N]; simp [hN0, RATE_LIMIT_WINDOW_SECS])]
    rw [if_pos (by omega)]
    rfl
  · intro t2 ht2
    have h1 : t / 60 + 1 ≤ t2 / 60 := by
      have hd := Nat.div_le_div_right (c := 60) ht2
      rwa [Nat.add_div_right t (by norm_num)] at hd
    rw [rl_request_response_newwindow N key _ t2 (t / 60) (N + 1)
      (by rw [hcount (N + 1)]; simp) (by unfold RATE_LIMIT_WINDOW_SECS; omega)]
    rw [if_neg (by omega)]

def rlKeyW : String := "rate_limit:token:clientA"

def rlEmpty : RLState := fun _ => none

/-- Witness for C8 with limit 2 at time 0: the second request succeeds with
remaining 0, the third is blocked with 429 and Retry-After 60, and a
request at time 61 (next window) succeeds. -/
theorem rate_limit_window_contract_witness :
    (rate_limit_request 2 rlKeyW (rl_state_after 2 rlKeyW 0 rlEmpty 1) 0).2 =
      ⟨200, some 2, some 0, none⟩
    ∧ (rate_limit_request 2 rlKeyW (rl_state_after 2 rlKeyW 0 rlEmpty 2) 0).2 =
      ⟨429, some 2, none, some 60⟩
    ∧ (rate_limit_request 2 rlKeyW (rl_state_after 2 rlKeyW 0 rlEmpty 3) 61).2.status = 200 :=
  have h := rate_limit_window_contract 2 rlKeyW 0 rlEmpty rfl (by omega)
  ⟨h.1 1 (by omega), h.2.1, h.2.2 61 (by omega)⟩
